import Mathlib

/-
Verification development for the hn-client repository (TypeScript client for
the Hacker News Algolia search API).  The definitions below are a shallow
embedding of the query-parameter construction and result-normalization layer
(src/algolia/helpers.ts, src/algolia/mod.ts, src/algolia/objects.ts) and of
the facade methods frontPage and whoIsHiring (the main entry module).
JavaScript numbers that the code treats as integers are embedded as Int or
Nat; optional and possibly-undefined fields are embedded as Option; code
that can throw is embedded in Except.
-/

/-- JavaScript `Array.prototype.join(sep)`, as used by
`params.tags.join(",")`, `numericFilters.join(",")`,
`optionalWords.join(" ")` and `restrictSearchableAttributes.join(",")`:
the empty list joins to the empty string, otherwise the separator is put
between consecutive elements. -/
def jsJoin (sep : String) : List String → String
  | [] => ""
  | t :: ts => ts.foldl (fun acc s => acc ++ sep ++ s) t

/-- Class `OrTags` (src/algolia/helpers.ts): helper class for OR logic in tag
filters; it simply stores the member tag tokens. -/
structure OrTags where
  tags : List String
deriving DecidableEq, Repr

/-- Method `OrTags.toString` (src/algolia/helpers.ts): serializes the group as
the parenthesized comma-join of its members. -/
def OrTags.toString (o : OrTags) : String :=
  "(" ++ jsJoin "," o.tags ++ ")"

/-- The `OrTags` constructor and the static factory `OrTags.from`
(src/algolia/helpers.ts).  The TypeScript constructor body is
`this.tags = tags` with no validation, so as a possibly-throwing
JavaScript constructor it never throws: the embedding in `Except`
(modelling the JS exception channel) always returns `ok`. -/
def OrTags.fromTags (ts : List String) : Except String OrTags :=
  .ok { tags := ts }

/-- Function `createAuthorTag` (src/algolia/helpers.ts): builds the
`author_<username>` tag token. -/
def createAuthorTag (username : String) : String :=
  "author_" ++ username

/-- One element of `SearchParams.tags`: either a plain tag token or an
`OrTags` group (TypeScript type `Tag | OrTags`). -/
inductive TagElem
  | tag (s : String)
  | group (g : OrTags)
deriving DecidableEq, Repr

/-- How `Array.prototype.join` turns one `Tag | OrTags` element into a
string: a plain tag is its token, an `OrTags` goes through its
`toString`. -/
def TagElem.render : TagElem → String
  | .tag s => s
  | .group g => g.toString

/-- Type `SearchParams` (src/algolia/types.ts): every field is optional. -/
structure SearchParams where
  query : Option String := none
  tags : Option (List TagElem) := none
  numericFilters : Option (List String) := none
  page : Option Int := none
  hitsPerPage : Option Int := none
  sortByDate : Option Bool := none
  optionalWords : Option (List String) := none
  filters : Option String := none
  restrictSearchableAttributes : Option (List String) := none
deriving DecidableEq

/-
`buildSearchParams` (src/algolia/helpers.ts) performs a sequence of
`URLSearchParams.set` calls guarded by presence/non-emptiness checks and
returns the serialized parameters.  `URLSearchParams` keeps keys in
insertion order and every key is set at most once, so the embedding
returns the ordered association list of (key, value) pairs that the code
sets; each guarded `set` block is one chunk below, concatenated in the
order of the source.
-/

/-- Chunk for `if (params.query) set("query", params.query)` — a string is truthy
iff non-empty. -/
def queryChunk (p : SearchParams) : List (String × String) :=
  match p.query with
  | some q => if q = "" then [] else [("query", q)]
  | none => []

/-- Chunk for `if (params.tags && params.tags.length > 0) set("tags",
params.tags.join(","))`. -/
def tagsChunk (p : SearchParams) : List (String × String) :=
  match p.tags with
  | some ts => if ts.length > 0 then [("tags", jsJoin "," (ts.map TagElem.render))] else []
  | none => []

/-- Chunk for `if (params.numericFilters && params.numericFilters.length > 0)
set("numericFilters", params.numericFilters.join(","))`. -/
def numericFiltersChunk (p : SearchParams) : List (String × String) :=
  match p.numericFilters with
  | some fs => if fs.length > 0 then [("numericFilters", jsJoin "," fs)] else []
  | none => []

/-- Chunk for `if (params.optionalWords && params.optionalWords.length > 0)
set("optionalWords", params.optionalWords.join(" "))`. -/
def optionalWordsChunk (p : SearchParams) : List (String × String) :=
  match p.optionalWords with
  | some ws => if ws.length > 0 then [("optionalWords", jsJoin " " ws)] else []
  | none => []

/-- Chunk for `if (params.page !== undefined) set("page", params.page.toString())`. -/
def pageChunk (p : SearchParams) : List (String × String) :=
  match p.page with
  | some n => [("page", toString n)]
  | none => []

/-- Chunk for `if (params.filters) set("filters", params.filters)` — truthy iff
non-empty. -/
def filtersChunk (p : SearchParams) : List (String × String) :=
  match p.filters with
  | some f => if f = "" then [] else [("filters", f)]
  | none => []

/-- Chunk for `if (params.hitsPerPage !== undefined) set("hitsPerPage",
params.hitsPerPage.toString())`. -/
def hitsPerPageChunk (p : SearchParams) : List (String × String) :=
  match p.hitsPerPage with
  | some h => [("hitsPerPage", toString h)]
  | none => []

/-- Chunk for `if (params.restrictSearchableAttributes && ...length > 0)
set(..., join(",")) else set("restrictSearchableAttributes", "title")`. -/
def restrictChunk (p : SearchParams) : List (String × String) :=
  match p.restrictSearchableAttributes with
  | some rs =>
      if rs.length > 0 then [("restrictSearchableAttributes", jsJoin "," rs)]
      else [("restrictSearchableAttributes", "title")]
  | none => [("restrictSearchableAttributes", "title")]

/-- Function `buildSearchParams` (src/algolia/helpers.ts): the ordered pairs set on
the `URLSearchParams`, in source order. -/
def buildSearchParams (p : SearchParams) : List (String × String) :=
  queryChunk p ++ (tagsChunk p ++ (numericFiltersChunk p ++ (optionalWordsChunk p ++
    (pageChunk p ++ (filtersChunk p ++ (hitsPerPageChunk p ++ restrictChunk p))))))

/-- The `hitsPerPage` expression inlined in `HNSearchClient.search`
(src/algolia/mod.ts lines 47-53): `typeof params.hitsPerPage ===
"undefined" ? 100 : params.hitsPerPage < 0 ? 1 : params.hitsPerPage > 100
? 100 : params.hitsPerPage`. -/
def hppClamp : Option Int → Int
  | none => 100
  | some h => if h < 0 then 1 else if h > 100 then 100 else h

/-- The `searchParams` object built at the start of
`HNSearchClient.search` (src/algolia/mod.ts lines 44-54): the caller
params with `sortByDate` defaulted to `true` and `hitsPerPage` replaced
by the clamped value. -/
def HNSearchClient.normalizeParams (p : SearchParams) : SearchParams :=
  { p with
    sortByDate := some (match p.sortByDate with | none => true | some b => b),
    hitsPerPage := some (hppClamp p.hitsPerPage) }

/-- Discriminant of a normalized hit, the value of the `type` accessor of
the object classes in src/algolia/objects.ts. -/
inductive ObjKind
  | story
  | comment
  | poll
  | pollopt
  | job
  | hit
deriving DecidableEq, Repr

/-- One raw record of the `hits` array of the Algolia response
(src/algolia/types.ts), restricted to the fields the verified code
reads: `_tags` (here `tags`), `objectID`, `created_at` (declared as a
required string, embedded as `Option` so that a payload in which it is
absent at runtime is representable), `story_id` (required on `Story` and
`Comment` records) and `comment_text` (optional on `Comment`). -/
structure RawHit where
  tags : List String
  objectID : String := ""
  created_at : Option String := none
  story_id : Int := 0
  comment_text : Option String := none
deriving DecidableEq, Repr

/-- The classification chain in `HNSearchClient.search`
(src/algolia/mod.ts lines 82-99): `if (hit._tags.includes(Tags.STORY))
... new StoryObject ... else if includes COMMENT ... POLL ... POLLOPT ...
JOB ... else new HitObject`. -/
def classifyHit (tags : List String) : ObjKind :=
  if tags.contains "story" then .story
  else if tags.contains "comment" then .comment
  else if tags.contains "poll" then .poll
  else if tags.contains "pollopt" then .pollopt
  else if tags.contains "job" then .job
  else .hit

/-- A normalized hit: the discriminant chosen by the classification chain
together with the record data it wraps. -/
structure NormObj where
  kind : ObjKind
  data : RawHit
deriving DecidableEq, Repr

/-- Normalization of one raw record, as done inside `res.hits.map`. -/
def normalizeHit (h : RawHit) : NormObj :=
  { kind := classifyHit h.tags, data := h }

/-- Mapping `res.hits.map(...)` of `HNSearchClient.search`: the normalizer over
the whole batch, order preserved. -/
def normalizeHits (hits : List RawHit) : List NormObj :=
  hits.map normalizeHit

/-- A JavaScript `Date`: its time value is a number of milliseconds or
NaN; `millis = none` models an Invalid Date (NaN time value). -/
structure DateJS where
  millis : Option Int
deriving DecidableEq, Repr

/-- The `createdAt` accessor of `HitObject`
(src/algolia/objects.ts lines 98-100):
`this.data.created_at ? parseISO(this.data.created_at) : null`.
The external date-fns `parseISO` collaborator is a parameter; the
conditional is JavaScript truthiness, so an absent or empty string gives
`null` and any non-empty string is handed to `parseISO`. -/
def HitObject.createdAt (parseISO : String → DateJS) (h : RawHit) : Option DateJS :=
  match h.created_at with
  | some s => if s = "" then none else some (parseISO s)
  | none => none

/-- Model of the external date-fns `parseISO` collaborator restricted to
strings that are not valid ISO-8601 dates: per the date-fns contract it
does not throw and returns an Invalid Date (a `Date` with NaN time
value, here `millis = none`).  Used only to evaluate `createdAt` at such
an input. -/
def parseISOOnUnparsable : String → DateJS :=
  fun _ => { millis := none }

/-- A sample raw record whose `created_at` is a non-empty string that is
not a valid ISO-8601 date. -/
def rawHitBadDate : RawHit :=
  { tags := ["story"], objectID := "7", created_at := some "not-a-date" }

/-- The character-level replacement of `/<p>|<\/p>/g` by the empty string
(inside `unescapeHtml`, src/algolia/objects.ts line 27): one left-to-right
pass that drops each occurrence of the two alternatives. -/
def stripPChars : List Char → List Char
  | [] => []
  | '<' :: 'p' :: '>' :: rest => stripPChars rest
  | '<' :: '/' :: 'p' :: '>' :: rest => stripPChars rest
  | c :: rest => c :: stripPChars rest

/-- String form of `stripPChars`. -/
def stripPTags (s : String) : String :=
  String.mk (stripPChars s.toList)

/-- Function `unescapeHtml` (src/algolia/objects.ts lines 25-28):
`unescape(text, { entityList }).replace(/<p>|<\/p>/g, "")`.  The external
`@std/html` `unescape` collaborator (HTML entity decoding) is the
`decodeEntities` parameter. -/
def unescapeHtml (decodeEntities : String → String) (text : String) : String :=
  stripPTags (decodeEntities text)

/-- The `commentText` accessor of `CommentObject`
(src/algolia/objects.ts lines 244-246):
`unescapeHtml(this.data.comment_text ?? "")`. -/
def CommentObject.commentText (decodeEntities : String → String) (h : RawHit) : String :=
  unescapeHtml decodeEntities (match h.comment_text with | some s => s | none => "")

/-- A fetch `Response` restricted to the fields the code reads on the
error path: `status` and `statusText`. -/
structure HttpResponse where
  status : Nat
  statusText : String
deriving DecidableEq, Repr

/-- Accessor `Response.ok` of the fetch API: true exactly when the status is in
the inclusive range 200-299. -/
def HttpResponse.ok (r : HttpResponse) : Bool :=
  decide (200 ≤ r.status) && decide (r.status < 300)

/-- The response envelope `AlgoliaResponse` (src/algolia/types.ts),
restricted to the fields `HNSearchClient.search` consumes. -/
structure AlgoliaResponse where
  hits : List RawHit
  hitsPerPage : Int := 0
  nbHits : Int := 0
  nbPages : Int := 0
  page : Int := 0
  processingTimeMS : Int := 0
  serverTimeMS : Int := 0
deriving DecidableEq, Repr

/-- The `meta` part of `HNSearchClientSearchResponse`
(src/algolia/mod.ts lines 12-22). -/
structure SearchMeta where
  hitsPerPage : Int
  numberOfHits : Int
  numberOfPages : Int
  currentPage : Int
  timeMsProcessing : Int
  timeMsServer : Int
deriving DecidableEq, Repr

/-- Type `HNSearchClientSearchResponse` (src/algolia/mod.ts). -/
structure SearchResponse where
  meta : SearchMeta
  data : List NormObj
deriving DecidableEq, Repr

/-- An all-zero metadata record, used for concrete sample responses. -/
def metaZero : SearchMeta :=
  { hitsPerPage := 0, numberOfHits := 0, numberOfPages := 0, currentPage := 0,
    timeMsProcessing := 0, timeMsServer := 0 }

/-- A sample normalized story hit whose story id is 33. -/
def storyHit33 : NormObj :=
  { kind := ObjKind.story, data := { tags := ["story"], story_id := 33 } }

/-- A sample transport whose every response has zero hits. -/
def respondEmpty : SearchParams → SearchResponse :=
  fun _ => { meta := metaZero, data := [] }

/-- A sample transport whose every response contains the single story hit
`storyHit33`. -/
def respondStory33 : SearchParams → SearchResponse :=
  fun _ => { meta := metaZero, data := [storyHit33] }

/-- Method `HNSearchClient.search` (src/algolia/mod.ts) after the single awaited
fetch: `resp` models the fetch `Response` and `body` its parsed JSON
envelope.  On `!response.ok` the code throws
`new Error("HTTP error! status: " + response.status)` — embedded as the
`Except.error` carrying that message; otherwise it normalizes the hits
and returns the response object.  The function consumes exactly one
response: no retry exists in the source. -/
def HNSearchClient.search (params : SearchParams) (resp : HttpResponse)
    (body : AlgoliaResponse) : Except String SearchResponse :=
  let _searchParams := HNSearchClient.normalizeParams params
  if resp.ok then
    .ok
      { meta :=
          { hitsPerPage := body.hitsPerPage
            numberOfHits := body.nbHits
            numberOfPages := body.nbPages
            currentPage := body.page
            timeMsProcessing := body.processingTimeMS
            timeMsServer := body.serverTimeMS }
        data := normalizeHits body.hits }
  else
    .error ("HTTP error! status: " ++ toString resp.status)

/-- The parameters `HackerNewsClient.frontPage` accepts: `SearchParams`
with `tags`, `sortByDate` and `hitsPerPage` removed by `Omit` in the
source type. -/
structure FrontPageParams where
  query : Option String := none
  numericFilters : Option (List String) := none
  page : Option Int := none
  optionalWords : Option (List String) := none
  filters : Option String := none
  restrictSearchableAttributes : Option (List String) := none
deriving DecidableEq

/-- Method `HackerNewsClient.frontPage` (main entry module): computes
`oneWeekAgo = Math.floor(Date.now() / 1000) - 7 * 24 * 60 * 60`
(`nowMs` models `Date.now()`, a non-negative millisecond count, and the
flooring division of a non-negative number is `Nat` division), then calls
`search` with the caller params spread first and `tags` and
`numericFilters` overwritten afterwards.  The value returned is the
`SearchParams` handed to `HNSearchClient.search`. -/
def HackerNewsClient.frontPage (nowMs : Nat) (p : FrontPageParams) : SearchParams :=
  let oneWeekAgo : Int := ((nowMs / 1000 : Nat) : Int) - 7 * 24 * 60 * 60
  { query := p.query
    tags := some [TagElem.tag "front_page", TagElem.tag "story"]
    numericFilters := some ["created_at_i>=" ++ toString oneWeekAgo]
    page := p.page
    hitsPerPage := none
    sortByDate := none
    optionalWords := p.optionalWords
    filters := p.filters
    restrictSearchableAttributes := p.restrictSearchableAttributes }

/-- The parameters `HackerNewsClient.whoIsHiring` accepts: `SearchParams`
with `tags`, `sortByDate` and `filters` removed by `Omit` in the source
type. -/
structure WhoIsHiringParams where
  query : Option String := none
  numericFilters : Option (List String) := none
  page : Option Int := none
  hitsPerPage : Option Int := none
  optionalWords : Option (List String) := none
  restrictSearchableAttributes : Option (List String) := none
deriving DecidableEq

/-- The first request `whoIsHiring` issues: the latest story authored by
the fixed `whoishiring` account,
`{ tags: [Tags.STORY, Tags.author("whoishiring")], hitsPerPage: 1 }`. -/
def whoIsHiringFirstReq : SearchParams :=
  { tags := some [TagElem.tag "story", TagElem.tag (createAuthorTag "whoishiring")]
    hitsPerPage := some 1 }

/-- The second request `whoIsHiring` issues when the first lookup found a
story: the caller params spread first, then `tags: [Tags.COMMENT]`,
`filters` set to the parent filter for the found story id, and
`hitsPerPage: 100`. -/
def whoIsHiringSecondReq (p : WhoIsHiringParams) (storyId : Int) : SearchParams :=
  { query := p.query
    tags := some [TagElem.tag "comment"]
    numericFilters := p.numericFilters
    page := p.page
    hitsPerPage := some 100
    sortByDate := none
    optionalWords := p.optionalWords
    filters := some ("parent_id=" ++ toString storyId)
    restrictSearchableAttributes := p.restrictSearchableAttributes }

/-- Method `HackerNewsClient.whoIsHiring` (main entry module): `respond` models
the search round trip (request parameters to returned response).  The
first lookup is issued; if its `data` is empty the function returns that
response at once, otherwise it issues the second, comment-filtered
request built from the first hit.  The second component of the result is
the list of requests issued, in order. -/
def HackerNewsClient.whoIsHiring (respond : SearchParams → SearchResponse)
    (p : WhoIsHiringParams) : SearchResponse × List SearchParams :=
  let res := respond whoIsHiringFirstReq
  match res.data with
  | [] => (res, [whoIsHiringFirstReq])
  | story :: _ =>
      let req2 := whoIsHiringSecondReq p story.data.story_id
      (respond req2, [whoIsHiringFirstReq, req2])

/-- Character-level check that `needle` occurs at the head of `hay`. -/
def charsLeadWith : List Char → List Char → Bool
  | [], _ => true
  | _ :: _, [] => false
  | a :: as, b :: bs => a == b && charsLeadWith as bs

/-- Character-level check that `needle` occurs somewhere in `hay`. -/
def charsHaveRun (needle : List Char) : List Char → Bool
  | [] => needle.isEmpty
  | c :: rest => charsLeadWith needle (c :: rest) || charsHaveRun needle rest

/-- Whether `hay` contains `needle` as a substring (JavaScript
`String.prototype.includes`). -/
def strContains (hay needle : String) : Bool :=
  charsHaveRun needle.toList hay.toList

/-- Comma-join written from the words of the specification: the members
separated by commas (used to compare the source serialization against
the specification text). -/
def commaJoinSpec : List String → String
  | [] => ""
  | [t] => t
  | t :: ts => t ++ "," ++ commaJoinSpec ts

/-
Helper lemmas shared by the claim theorems.
-/

theorem lookup_append_keys_ne (k : String) (l1 l2 : List (String × String))
    (h : ∀ kv ∈ l1, kv.1 ≠ k) :
    List.lookup k (l1 ++ l2) = List.lookup k l2 := by
  induction l1 with
  | nil => rfl
  | cons a t ih =>
    rcases a with ⟨k1, v1⟩
    have hk1 : k1 ≠ k := h (k1, v1) (by simp)
    have hb : (k == k1) = false := by
      simp [beq_eq_false_iff_ne]
      exact fun he => hk1 he.symm
    simp only [List.cons_append, List.lookup_cons, hb]
    exact ih (fun kv hkv => h kv (by simp [hkv]))

theorem queryChunk_key (p : SearchParams) : ∀ kv ∈ queryChunk p, kv.1 = "query" := by
  intro kv hkv
  unfold queryChunk at hkv
  split at hkv
  · split at hkv <;> simp_all
  · simp at hkv

theorem tagsChunk_key (p : SearchParams) : ∀ kv ∈ tagsChunk p, kv.1 = "tags" := by
  intro kv hkv
  unfold tagsChunk at hkv
  split at hkv
  · split at hkv <;> simp_all
  · simp at hkv

theorem numericFiltersChunk_key (p : SearchParams) :
    ∀ kv ∈ numericFiltersChunk p, kv.1 = "numericFilters" := by
  intro kv hkv
  unfold numericFiltersChunk at hkv
  split at hkv
  · split at hkv <;> simp_all
  · simp at hkv

theorem optionalWordsChunk_key (p : SearchParams) :
    ∀ kv ∈ optionalWordsChunk p, kv.1 = "optionalWords" := by
  intro kv hkv
  unfold optionalWordsChunk at hkv
  split at hkv
  · split at hkv <;> simp_all
  · simp at hkv

theorem pageChunk_key (p : SearchParams) : ∀ kv ∈ pageChunk p, kv.1 = "page" := by
  intro kv hkv
  unfold pageChunk at hkv
  split at hkv <;> simp_all

theorem filtersChunk_key (p : SearchParams) : ∀ kv ∈ filtersChunk p, kv.1 = "filters" := by
  intro kv hkv
  unfold filtersChunk at hkv
  split at hkv
  · split at hkv <;> simp_all
  · simp at hkv

theorem hitsPerPageChunk_key (p : SearchParams) :
    ∀ kv ∈ hitsPerPageChunk p, kv.1 = "hitsPerPage" := by
  intro kv hkv
  unfold hitsPerPageChunk at hkv
  split at hkv <;> simp_all

theorem lookup_buildSearchParams_hpp (p : SearchParams) (v : Int)
    (hv : p.hitsPerPage = some v) :
    List.lookup "hitsPerPage" (buildSearchParams p) = some (toString v) := by
  unfold buildSearchParams
  rw [lookup_append_keys_ne _ _ _ (fun kv hkv => by rw [queryChunk_key p kv hkv]; decide)]
  rw [lookup_append_keys_ne _ _ _ (fun kv hkv => by rw [tagsChunk_key p kv hkv]; decide)]
  rw [lookup_append_keys_ne _ _ _ (fun kv hkv => by rw [numericFiltersChunk_key p kv hkv]; decide)]
  rw [lookup_append_keys_ne _ _ _ (fun kv hkv => by rw [optionalWordsChunk_key p kv hkv]; decide)]
  rw [lookup_append_keys_ne _ _ _ (fun kv hkv => by rw [pageChunk_key p kv hkv]; decide)]
  rw [lookup_append_keys_ne _ _ _ (fun kv hkv => by rw [filtersChunk_key p kv hkv]; decide)]
  unfold hitsPerPageChunk
  rw [hv]
  simp [List.lookup]

theorem lookup_buildSearchParams_rsa (p : SearchParams) :
    List.lookup "restrictSearchableAttributes" (buildSearchParams p) =
      some (match p.restrictSearchableAttributes with
            | some rs => if rs.length > 0 then jsJoin "," rs else "title"
            | none => "title") := by
  unfold buildSearchParams
  rw [lookup_append_keys_ne _ _ _ (fun kv hkv => by rw [queryChunk_key p kv hkv]; decide)]
  rw [lookup_append_keys_ne _ _ _ (fun kv hkv => by rw [tagsChunk_key p kv hkv]; decide)]
  rw [lookup_append_keys_ne _ _ _ (fun kv hkv => by rw [numericFiltersChunk_key p kv hkv]; decide)]
  rw [lookup_append_keys_ne _ _ _ (fun kv hkv => by rw [optionalWordsChunk_key p kv hkv]; decide)]
  rw [lookup_append_keys_ne _ _ _ (fun kv hkv => by rw [pageChunk_key p kv hkv]; decide)]
  rw [lookup_append_keys_ne _ _ _ (fun kv hkv => by rw [filtersChunk_key p kv hkv]; decide)]
  rw [lookup_append_keys_ne _ _ _ (fun kv hkv => by rw [hitsPerPageChunk_key p kv hkv]; decide)]
  unfold restrictChunk
  cases hr : p.restrictSearchableAttributes with
  | none => simp [List.lookup]
  | some rs => by_cases h : rs.length > 0 <;> simp [h, List.lookup]

theorem foldl_sep_append (ts : List String) : ∀ a b : String,
    ts.foldl (fun x s => x ++ "," ++ s) (a ++ b) = a ++ ts.foldl (fun x s => x ++ "," ++ s) b := by
  induction ts with
  | nil => intro a b; rfl
  | cons t ts ih =>
    intro a b
    simp only [List.foldl_cons]
    rw [String.append_assoc a b ",", String.append_assoc a (b ++ ",") t]
    exact ih a (b ++ "," ++ t)

theorem jsJoin_eq_commaJoinSpec : ∀ ts, jsJoin "," ts = commaJoinSpec ts := by
  intro ts
  induction ts with
  | nil => rfl
  | cons t ts ih =>
    cases ts with
    | nil => rfl
    | cons t2 ts2 =>
      show (t2 :: ts2).foldl (fun x s => x ++ "," ++ s) t = commaJoinSpec (t :: t2 :: ts2)
      simp only [List.foldl_cons]
      rw [foldl_sep_append ts2 (t ++ ",") t2]
      have ih2 : ts2.foldl (fun x s => x ++ "," ++ s) t2 = commaJoinSpec (t2 :: ts2) := ih
      rw [ih2]
      simp only [commaJoinSpec]

theorem charsLeadWith_refl : ∀ l : List Char, charsLeadWith l l = true := by
  intro l
  induction l with
  | nil => rfl
  | cons c rest ih => simp [charsLeadWith, ih]

theorem charsHaveRun_append_self (needle : List Char) :
    ∀ pre : List Char, charsHaveRun needle (pre ++ needle) = true := by
  intro pre
  induction pre with
  | nil =>
    cases needle with
    | nil => rfl
    | cons c rest => simp [charsHaveRun, charsLeadWith_refl]
  | cons x xs ih => simp [charsHaveRun, ih]

theorem strContains_append_self (pre s : String) : strContains (pre ++ s) s = true := by
  unfold strContains
  have hd : (pre ++ s).toList = pre.toList ++ s.toList := String.data_append pre s
  rw [hd]
  exact charsHaveRun_append_self _ _

/-
Claim theorems.
-/

/-- Claim C1, counterexample: the claim says an input `hitsPerPage` that is
present and below 1 is clamped to 1, so in particular input 0 maps to 1 and
the emitted value always lies in [1,100].  On the code, the clamp condition
is `< 0`, so input 0 is emitted unchanged as 0: the built query string
carries `hitsPerPage=0`, which is not 1 and not in [1,100]. -/
theorem hitsPerPageZeroCounterexample :
    List.lookup "hitsPerPage"
        (buildSearchParams (HNSearchClient.normalizeParams { hitsPerPage := some 0 })) =
      some "0"
    ∧ hppClamp (some 0) = 0 ∧ ¬ (1 ≤ hppClamp (some 0)) := by
  refine ⟨by decide, rfl, by decide⟩

/-- Claim C1 (amended): for every `SearchParams` passed to
`HNSearchClient.search`, the effective `hitsPerPage` sent in the built
query string is 100 when absent, 1 when present and below 0, 100 when
present and above 100, and otherwise the input unchanged; the emitted
value is always present and lies in [0,100] (input 0 is emitted as 0). -/
theorem hitsPerPageClampBehavior (p : SearchParams) :
    List.lookup "hitsPerPage" (buildSearchParams (HNSearchClient.normalizeParams p)) =
      some (toString (hppClamp p.hitsPerPage))
    ∧ 0 ≤ hppClamp p.hitsPerPage ∧ hppClamp p.hitsPerPage ≤ 100
    ∧ hppClamp none = 100
    ∧ (∀ v : Int, v < 0 → hppClamp (some v) = 1)
    ∧ (∀ v : Int, 100 < v → hppClamp (some v) = 100)
    ∧ (∀ v : Int, 0 ≤ v → v ≤ 100 → hppClamp (some v) = v) := by
  refine ⟨?_, ?_, ?_, rfl, ?_, ?_, ?_⟩
  · exact lookup_buildSearchParams_hpp _ _ rfl
  · cases hh : p.hitsPerPage with
    | none => norm_num [hppClamp]
    | some v => simp only [hppClamp]; split_ifs <;> omega
  · cases hh : p.hitsPerPage with
    | none => norm_num [hppClamp]
    | some v => simp only [hppClamp]; split_ifs <;> omega
  · intro v hv; simp only [hppClamp]; rw [if_pos hv]
  · intro v hv; simp only [hppClamp]; split_ifs <;> omega
  · intro v hv0 hv100; simp only [hppClamp]; split_ifs <;> omega

/-- Claim C1 (witness): the amended theorem applied at concrete inputs:
input 7 is emitted unchanged, input -5 clamps to 1, input 500 clamps to
100. -/
theorem hitsPerPageClampBehaviorWitness :
    List.lookup "hitsPerPage"
        (buildSearchParams (HNSearchClient.normalizeParams { hitsPerPage := some 7 })) =
      some "7"
    ∧ hppClamp (some (-5)) = 1 ∧ hppClamp (some 500) = 100 ∧ hppClamp (some 7) = 7 := by
  have h := hitsPerPageClampBehavior { hitsPerPage := some 7 }
  exact ⟨h.1, h.2.2.2.2.1 (-5) (by norm_num), h.2.2.2.2.2.1 500 (by norm_num),
    h.2.2.2.2.2.2 7 (by norm_num) (by norm_num)⟩

/-- Claim C2: the result normalizer classifies a raw record by inspecting
the raw tag list in the strict priority order story, comment, poll,
pollopt, job — first match wins — and falls back to the generic hit
variant exactly when none of the five tags is present; in particular a
record tagged ["story", "front_page"] normalizes to the story variant. -/
theorem classifyHitPriority (tags : List String) :
    (classifyHit tags = ObjKind.story ↔ "story" ∈ tags)
    ∧ (classifyHit tags = ObjKind.comment ↔ ("story" ∉ tags ∧ "comment" ∈ tags))
    ∧ (classifyHit tags = ObjKind.poll ↔
        ("story" ∉ tags ∧ "comment" ∉ tags ∧ "poll" ∈ tags))
    ∧ (classifyHit tags = ObjKind.pollopt ↔
        ("story" ∉ tags ∧ "comment" ∉ tags ∧ "poll" ∉ tags ∧ "pollopt" ∈ tags))
    ∧ (classifyHit tags = ObjKind.job ↔
        ("story" ∉ tags ∧ "comment" ∉ tags ∧ "poll" ∉ tags ∧ "pollopt" ∉ tags ∧
          "job" ∈ tags))
    ∧ (classifyHit tags = ObjKind.hit ↔
        ("story" ∉ tags ∧ "comment" ∉ tags ∧ "poll" ∉ tags ∧ "pollopt" ∉ tags ∧
          "job" ∉ tags))
    ∧ (normalizeHit { tags := ["story", "front_page"] }).kind = ObjKind.story := by
  have e : ∀ (l : List String) (a : String), l.contains a = true ↔ a ∈ l :=
    fun l a => List.elem_iff
  refine ⟨?_, ?_, ?_, ?_, ?_, ?_, by decide⟩ <;>
  · unfold classifyHit
    by_cases h1 : "story" ∈ tags <;> by_cases h2 : "comment" ∈ tags <;>
      by_cases h3 : "poll" ∈ tags <;> by_cases h4 : "pollopt" ∈ tags <;>
      by_cases h5 : "job" ∈ tags <;>
      simp [h1, h2, h3, h4, h5, e]

/-- Claim C3, counterexample: the claim says constructing an OR-group
with zero member tags fails with an InvalidArgument error.  On the code,
the constructor performs no validation: construction with the empty list
succeeds (no exception channel is used) and the group serializes to
"()". -/
theorem orTagsEmptyConstructionSucceeds :
    OrTags.fromTags [] = Except.ok { tags := [] }
    ∧ (OrTags.mk []).toString = "()" := ⟨rfl, rfl⟩

/-- Claim C3 (amended): constructing an OR-group never fails — the empty
member list is accepted and serializes to "()" — and for every member
list serialization wraps the comma-joined member tokens in parentheses;
in particular the group over [story, comment] serializes to
"(story,comment)". -/
theorem orTagsSerialization :
    (∀ ts, OrTags.fromTags ts = Except.ok (OrTags.mk ts))
    ∧ (∀ ts, (OrTags.mk ts).toString = "(" ++ commaJoinSpec ts ++ ")")
    ∧ (OrTags.mk ["story", "comment"]).toString = "(story,comment)" := by
  refine ⟨fun ts => rfl, fun ts => ?_, by decide⟩
  unfold OrTags.toString
  rw [jsJoin_eq_commaJoinSpec]

/-- Claim C4, evaluation at the failing input: a hit whose `created_at`
is the non-empty, unparsable string "not-a-date".  The code hands the
string to the external date-fns `parseISO`, which returns an Invalid
Date (NaN time value) rather than throwing, so the accessor returns that
Invalid Date wrapped in `some` — not the null value that the claim (and
the accessor doc comment in the source) promise. -/
theorem createdAtUnparsableEval :
    HitObject.createdAt parseISOOnUnparsable rawHitBadDate = some { millis := none }
    ∧ some ({ millis := none } : DateJS) ≠ (none : Option DateJS) := ⟨rfl, by decide⟩

/-- Claim C5, counterexample: the claim says the error raised on a
non-2xx response carries both the numeric status code and the status
text.  On the code, the thrown message is built from the status code
only: for the 404 / "Not Found" response the message is
"HTTP error! status: 404", which does not contain the status text. -/
theorem httpErrorOmitsStatusText :
    HNSearchClient.search {} { status := 404, statusText := "Not Found" } { hits := [] } =
      Except.error "HTTP error! status: 404"
    ∧ ({ status := 404, statusText := "Not Found" } : HttpResponse).ok = false
    ∧ strContains "HTTP error! status: 404" "Not Found" = false := by
  refine ⟨rfl, by decide, by decide⟩

/-- Claim C5 (amended): for every search call whose HTTP response has a
non-success status, the operation fails with an error whose message
carries the numeric status code (but not the status text, which is only
shown in the optional debug log); the single fetch is never retried and
the failure is surfaced to the caller as a failed (error) result. -/
theorem httpErrorCarriesStatus (params : SearchParams) (resp : HttpResponse)
    (body : AlgoliaResponse) (h : resp.ok = false) :
    HNSearchClient.search params resp body =
      Except.error ("HTTP error! status: " ++ toString resp.status)
    ∧ strContains ("HTTP error! status: " ++ toString resp.status)
        (toString resp.status) = true := by
  constructor
  · simp [HNSearchClient.search, h]
  · exact strContains_append_self _ _

/-- Claim C5 (witness): the amended theorem applied to the concrete
500 / "Internal Server Error" response. -/
theorem httpErrorCarriesStatusWitness :
    HNSearchClient.search {} { status := 500, statusText := "Internal Server Error" }
        { hits := [] } =
      Except.error "HTTP error! status: 500" := by
  exact (httpErrorCarriesStatus {}
    { status := 500, statusText := "Internal Server Error" } { hits := [] } (by decide)).1

/-- Claim C6: for every `SearchParams` input, the query builder output
always contains the `restrictSearchableAttributes` key; when the input
list is present and non-empty the value is the comma-join of the listed
attribute names, and when it is omitted or empty the value is the
literal "title". -/
theorem restrictSearchableAttributesDefault (p : SearchParams) :
    (∃ v, List.lookup "restrictSearchableAttributes" (buildSearchParams p) = some v)
    ∧ (p.restrictSearchableAttributes = none →
        List.lookup "restrictSearchableAttributes" (buildSearchParams p) = some "title")
    ∧ (p.restrictSearchableAttributes = some [] →
        List.lookup "restrictSearchableAttributes" (buildSearchParams p) = some "title")
    ∧ (∀ rs, p.restrictSearchableAttributes = some rs → rs ≠ [] →
        List.lookup "restrictSearchableAttributes" (buildSearchParams p) =
          some (commaJoinSpec rs)) := by
  have hl := lookup_buildSearchParams_rsa p
  refine ⟨⟨_, hl⟩, ?_, ?_, ?_⟩
  · intro hn; rw [hn] at hl; exact hl
  · intro hn; rw [hn] at hl; exact hl
  · intro rs hrs hne
    rw [hrs] at hl
    have hred : List.lookup "restrictSearchableAttributes" (buildSearchParams p) =
        some (if rs.length > 0 then jsJoin "," rs else "title") := hl
    have hlen : rs.length > 0 := List.length_pos.mpr hne
    rw [if_pos hlen] at hred
    rw [hred, jsJoin_eq_commaJoinSpec]

/-- Claim C6 (witness): the theorem applied at concrete inputs: an
omitted list defaults to "title"; the list ["url", "title"] is emitted
comma-joined. -/
theorem restrictSearchableAttributesDefaultWitness :
    List.lookup "restrictSearchableAttributes" (buildSearchParams {}) = some "title"
    ∧ List.lookup "restrictSearchableAttributes"
        (buildSearchParams { restrictSearchableAttributes := some ["url", "title"] }) =
      some "url,title" := by
  refine ⟨(restrictSearchableAttributesDefault {}).2.1 rfl, ?_⟩
  have h := (restrictSearchableAttributesDefault
    { restrictSearchableAttributes := some ["url", "title"] }).2.2.2
    ["url", "title"] rfl (by decide)
  exact h.trans (by decide)

/-- Claim C7: every call to the `frontPage` facade method builds a search
request whose `numericFilters` consist of exactly one filter of the form
`created_at_i>=N` where `N` is within 1 second of now minus 604800
seconds (computed at call time from `Date.now()`), and whose tags equal
["front_page", "story"]. -/
theorem frontPageInjectsWeekFilter (nowMs : Nat) (p : FrontPageParams) :
    (HackerNewsClient.frontPage nowMs p).tags =
      some [TagElem.tag "front_page", TagElem.tag "story"]
    ∧ [TagElem.tag "front_page", TagElem.tag "story"].map TagElem.render =
        ["front_page", "story"]
    ∧ ∃ n : Int,
        (HackerNewsClient.frontPage nowMs p).numericFilters =
          some ["created_at_i>=" ++ toString n]
        ∧ (nowMs : Int) - 7 * 24 * 60 * 60 * 1000 - 1000 < n * 1000
        ∧ n * 1000 ≤ (nowMs : Int) - 7 * 24 * 60 * 60 * 1000 := by
  refine ⟨rfl, rfl, ⟨((nowMs / 1000 : Nat) : Int) - 7 * 24 * 60 * 60, rfl, ?_, ?_⟩⟩
  · omega
  · omega

/-- Claim C8: when the first `whoIsHiring` lookup (latest story by the
fixed whoishiring account) yields zero hits, the operation returns that
empty first-call response at once and the request log contains only the
first request — the second, comment-filtered request is never issued;
when the first lookup yields a hit, exactly one second request is
issued, and its filter is `parent_id=` followed by the id of the found
story. -/
theorem whoIsHiringShortCircuit (respond : SearchParams → SearchResponse)
    (p : WhoIsHiringParams) :
    ((respond whoIsHiringFirstReq).data = [] →
      HackerNewsClient.whoIsHiring respond p =
        (respond whoIsHiringFirstReq, [whoIsHiringFirstReq]))
    ∧ (∀ story rest, (respond whoIsHiringFirstReq).data = story :: rest →
        HackerNewsClient.whoIsHiring respond p =
          (respond (whoIsHiringSecondReq p story.data.story_id),
            [whoIsHiringFirstReq, whoIsHiringSecondReq p story.data.story_id])
        ∧ (whoIsHiringSecondReq p story.data.story_id).filters =
            some ("parent_id=" ++ toString story.data.story_id)) := by
  constructor
  · intro h
    simp only [HackerNewsClient.whoIsHiring]
    rw [h]
  · intro story rest h
    constructor
    · simp only [HackerNewsClient.whoIsHiring]
      rw [h]
    · rfl

/-- Claim C8 (witness): the theorem applied to a concrete transport that
returns zero hits — only the first request is issued — and to one that
returns a story with id 33 — the second request carries the filter
`parent_id=33`. -/
theorem whoIsHiringShortCircuitWitness :
    HackerNewsClient.whoIsHiring respondEmpty {} =
      (respondEmpty whoIsHiringFirstReq, [whoIsHiringFirstReq])
    ∧ (HackerNewsClient.whoIsHiring respondStory33 {}).2 =
        [whoIsHiringFirstReq, whoIsHiringSecondReq {} 33]
    ∧ (whoIsHiringSecondReq {} 33).filters = some "parent_id=33" := by
  refine ⟨(whoIsHiringShortCircuit respondEmpty {}).1 rfl, ?_, ?_⟩
  · have h := (whoIsHiringShortCircuit respondStory33 {}).2 storyHit33 [] rfl
    exact congrArg Prod.snd h.1
  · rfl

/-- Claim C9: `frontPage` unconditionally replaces any caller-supplied
`numericFilters` with its single injected week filter, so for any two
calls at the same call time whose parameters differ only in the
caller-supplied `numericFilters` list, the built search request is
identical — caller filters are silently discarded. -/
theorem frontPageDiscardsCallerNumericFilters (nowMs : Nat) (p : FrontPageParams)
    (nf1 nf2 : Option (List String)) :
    HackerNewsClient.frontPage nowMs { p with numericFilters := nf1 } =
      HackerNewsClient.frontPage nowMs { p with numericFilters := nf2 } := rfl

/-- Claim C10: the `commentText` accessor is total: when the raw
`comment_text` field is absent it returns the empty string (given that
the external entity decoder maps the empty string to itself, as HTML
entity decoding does), and when present it returns the entity-decoded
text with the paragraph markup `<p>` and `</p>` stripped. -/
theorem commentTextTotal (decodeEntities : String → String)
    (hdec : decodeEntities "" = "") :
    (∀ h : RawHit, h.comment_text = none →
      CommentObject.commentText decodeEntities h = "")
    ∧ (∀ (h : RawHit) (s : String), h.comment_text = some s →
        CommentObject.commentText decodeEntities h = stripPTags (decodeEntities s))
    ∧ stripPTags "<p>Hello</p><p>World</p>" = "HelloWorld" := by
  refine ⟨?_, ?_, by decide⟩
  · intro h hh
    unfold CommentObject.commentText unescapeHtml
    rw [hh, hdec]
    rfl
  · intro h s hh
    unfold CommentObject.commentText unescapeHtml
    rw [hh]

/-- Claim C10 (witness): the theorem applied with the identity decoder at
concrete records: an absent `comment_text` yields the empty string and a
present one has its paragraph markup stripped. -/
theorem commentTextTotalWitness :
    CommentObject.commentText (fun s => s) { tags := ["comment"], comment_text := none } = ""
    ∧ CommentObject.commentText (fun s => s)
        { tags := ["comment"], comment_text := some "<p>Hi</p>" } = "Hi" := by
  have h := commentTextTotal (fun s => s) rfl
  exact ⟨h.1 _ rfl, (h.2.1 _ "<p>Hi</p>" rfl).trans (by decide)⟩
